import Mathlib

/-!
Verification development for the `js-secured-spa` repository's runtime
self-protection layer (`unprotected/js/security/antiDebug.js`,
`domGuard.js`, `selfDefend.js`) and its coordinator (`unprotected/js/app.js`).

The JavaScript modules are shallowly embedded: each detector's per-poll
routine becomes a pure state transition on an explicit latch state,
timer-driven polling becomes a fold over a list of per-tick environments
(the single-threaded cooperative model: one poll runs to completion per
tick), and exceptions raised by the host environment during a poll are
modelled by explicit throw flags routed through `Except`.
-/

/-- The per-detector latch (spec "DetectionLatch"): the "already triggered"
flag (`alreadyDetected` / `alreadyTriggered` / `alreadyFailed` in the three
modules), the timer handle (`intervalId`, `none` = JS `null`), the number of
`clearInterval` calls performed so far, and the list of reasons passed to the
external callback, in order of invocation. -/
structure DetectorLatch where
  triggered : Bool
  intervalId : Option Nat
  cancels : Nat
  calls : List String
deriving DecidableEq, Repr

/-- The latch state each detector starts from: flag down, timer handle still
`null` (the first, synchronous check runs before `setInterval` assigns it),
no cancellation, no callback invocation yet. -/
def initialLatch : DetectorLatch :=
  { triggered := false, intervalId := none, cancels := 0, calls := [] }

/-- The latch state right after `start` returns untriggered: `setInterval`
has assigned the timer handle `id`. -/
def runningLatch (id : Nat) : DetectorLatch :=
  { triggered := false, intervalId := some id, cancels := 0, calls := [] }

/-- The shared body of `triggerDetection` (antiDebug.js 41-57),
`triggerTamper` (domGuard.js 175-189) and `triggerFail` (selfDefend.js
49-63), which are textually identical up to log strings: an early return when
the flag is already up; otherwise raise the flag, clear the interval when the
handle is non-null (recorded in `cancels`) and set the handle to null, and
invoke the external callback with the reason when one was registered
(`cb = true` models `typeof onX === 'function'`). -/
def latchTrigger (cb : Bool) (s : DetectorLatch) (reason : String) : DetectorLatch :=
  if s.triggered then s
  else
    { triggered := true
      intervalId := none
      cancels := s.cancels + (if s.intervalId.isSome then 1 else 0)
      calls := s.calls ++ (if cb then [reason] else []) }

namespace AntiDebug

/-- antiDebug.js 9: `const DETECTION_INTERVAL_MS = 3000`. -/
def DETECTION_INTERVAL_MS : Nat := 3000

/-- antiDebug.js 10: `const SIZE_THRESHOLD = 160`. -/
def SIZE_THRESHOLD : Int := 160

/-- One poll's view of the browser environment: the four window metrics read
by `isDevToolsOpenBySize`, the `performance.now()` delta measured around the
`debugger` statement by `isDevToolsOpenByTiming`, and flags for the host
throwing while either heuristic evaluates. -/
structure DebugEnv where
  outerWidth : Int
  innerWidth : Int
  outerHeight : Int
  innerHeight : Int
  pauseDeltaMs : Int
  sizeThrows : Bool
  timingThrows : Bool

/-- antiDebug.js 13-18: `widthDiff > SIZE_THRESHOLD || heightDiff > SIZE_THRESHOLD`. -/
def isDevToolsOpenBySize (env : DebugEnv) : Bool :=
  decide (env.outerWidth - env.innerWidth > SIZE_THRESHOLD) ||
  decide (env.outerHeight - env.innerHeight > SIZE_THRESHOLD)

/-- antiDebug.js 21-33: the measured pause delta exceeds the literal `100`. -/
def isDevToolsOpenByTiming (env : DebugEnv) : Bool :=
  decide (env.pauseDeltaMs > 100)

/-- antiDebug.js 41-57 (`triggerDetection` inside `startAntiDebug`). -/
def triggerDetection : Bool → DetectorLatch → String → DetectorLatch := latchTrigger

/-- The body of the `try` block of `runChecks` (antiDebug.js 59-73): the two
heuristics in order, first positive wins; a throw from either aborts the
round. -/
def evalChecks (env : DebugEnv) : Except Unit (Option String) := do
  let bySize ← if env.sizeThrows then Except.error () else Except.ok (isDevToolsOpenBySize env)
  if bySize then
    return some "window-size-heuristic"
  let byTiming ← if env.timingThrows then Except.error () else Except.ok (isDevToolsOpenByTiming env)
  if byTiming then
    return some "timing-debugger-heuristic"
  return none

/-- antiDebug.js 59-73: `runChecks` with its `try`/`catch` boundary — an
exception is caught and treated as no detection this round. -/
def runChecks (cb : Bool) (env : DebugEnv) (s : DetectorLatch) : DetectorLatch :=
  match evalChecks env with
  | Except.error _ => s
  | Except.ok none => s
  | Except.ok (some reason) => triggerDetection cb s reason

/-- The interval ticks (antiDebug.js 79-83): each tick runs `runChecks` only
while the flag is down. -/
def polls (cb : Bool) (envs : List DebugEnv) (s : DetectorLatch) : DetectorLatch :=
  envs.foldl (fun t env => if t.triggered then t else runChecks cb env t) s

/-- What a caller may pass to `startAntiDebug` (a JS object): the callback,
plus attempted overrides for the module constants. antiDebug.js 35
destructures only `onDetected`; every other property is ignored. -/
structure AntiDebugConfig where
  onDetected : Bool
  detectionIntervalMs : Option Nat
  sizeThreshold : Option Int
  pauseThresholdMs : Option Int

/-- The interval `startAntiDebug` passes to `setInterval` (antiDebug.js 79-83):
always the module constant, whatever the config carries. -/
def usedInterval (_cfg : AntiDebugConfig) : Nat := DETECTION_INTERVAL_MS

/-- The pixel threshold the size heuristic compares against: always the
module constant. -/
def usedSizeThreshold (_cfg : AntiDebugConfig) : Int := SIZE_THRESHOLD

/-- The pause-timing threshold: the literal `100` of antiDebug.js 32. -/
def usedPauseThreshold (_cfg : AntiDebugConfig) : Int := 100

end AntiDebug

namespace DomGuard

/-- domGuard.js 96: `const CHECK_INTERVAL_MS = 3000`. -/
def CHECK_INTERVAL_MS : Nat := 3000

/-- domGuard.js 97: `const TEXT_CHANGE_FACTOR = 3`. -/
def TEXT_CHANGE_FACTOR : ℚ := 3

/-- domGuard.js 100-105: the protected selectors. -/
def PROTECTED_SELECTORS : List String :=
  [".app-main", "#task-form", ".task-filters", "#task-list"]

/-- One snapshot entry (domGuard.js 117-121): the selector, whether
`querySelector` found an element (`existsFlag` models the JS field
`exists`), and the length of its `textContent` (0 when absent). -/
structure SnapEntry where
  selector : String
  existsFlag : Bool
  textLength : Nat
deriving DecidableEq, Repr

/-- A live DOM as the monitor sees it: for each selector, `none` when
`querySelector` returns null, `some n` for an element whose
`(textContent || '').length` is `n`. -/
def LiveDom : Type := String → Option Nat

/-- domGuard.js 111-125: `snapshotDom`. -/
def snapshotDom (live : LiveDom) : List SnapEntry :=
  PROTECTED_SELECTORS.map fun selector =>
    match live selector with
    | none => { selector := selector, existsFlag := false, textLength := 0 }
    | some n => { selector := selector, existsFlag := true, textLength := n }

/-- The per-entry body of the loop of `isTampered` (domGuard.js 132-163):
an element that existed and is now absent is tampering; an element that
still exists is tampering when the length quotient
`cur > max(1,orig) ? cur / max(1,orig) : max(1,orig) / max(1,cur)`
(JS real division, modelled exactly in ℚ) exceeds `TEXT_CHANGE_FACTOR`;
entries whose element did not exist at snapshot time are never tampering. -/
def entryTampered (item : SnapEntry) (el : Option Nat) : Bool :=
  match el with
  | none => item.existsFlag
  | some currentTextLength =>
    if item.existsFlag then
      let maxLen : ℚ := max 1 (item.textLength : ℚ)
      let changeQ : ℚ :=
        if (currentTextLength : ℚ) > maxLen then (currentTextLength : ℚ) / maxLen
        else maxLen / max 1 (currentTextLength : ℚ)
      decide (changeQ > TEXT_CHANGE_FACTOR)
    else false

/-- domGuard.js 131-166: `isTampered` — true as soon as one entry offends
(the JS loop returns on the first offender; `List.any` has the same value). -/
def isTampered (initialSnapshot : List SnapEntry) (live : LiveDom) : Bool :=
  initialSnapshot.any fun item => entryTampered item (live item.selector)

/-- One poll's view of the DOM: the live queries, plus a flag for the host
throwing while the check reads the DOM. -/
structure DomEnv where
  live : LiveDom
  queryThrows : Bool

/-- domGuard.js 175-189 (`triggerTamper` inside `startDomGuard`). -/
def triggerTamper : Bool → DetectorLatch → String → DetectorLatch := latchTrigger

/-- domGuard.js 191-199: `runCheck` with its `try`/`catch` boundary; a
positive `isTampered` fires the trigger with reason "snapshot-mismatch". -/
def runCheck (cb : Bool) (initialSnapshot : List SnapEntry) (env : DomEnv)
    (s : DetectorLatch) : DetectorLatch :=
  if env.queryThrows then s
  else if isTampered initialSnapshot env.live then triggerTamper cb s "snapshot-mismatch"
  else s

/-- The interval ticks (domGuard.js 205-209): each tick runs `runCheck` only
while the flag is down. -/
def polls (cb : Bool) (initialSnapshot : List SnapEntry) (envs : List DomEnv)
    (s : DetectorLatch) : DetectorLatch :=
  envs.foldl (fun t env => if t.triggered then t else runCheck cb initialSnapshot env t) s

/-- What a caller may pass to `startDomGuard`: the callback, plus attempted
overrides. domGuard.js 168 destructures only `onTamper`. -/
structure DomGuardConfig where
  onTamper : Bool
  checkIntervalMs : Option Nat
  textChangeFactor : Option ℚ

/-- The interval `startDomGuard` passes to `setInterval`: always the module
constant. -/
def usedInterval (_cfg : DomGuardConfig) : Nat := CHECK_INTERVAL_MS

/-- The drift factor the ratio is compared against: always the module
constant. -/
def usedFactor (_cfg : DomGuardConfig) : ℚ := TEXT_CHANGE_FACTOR

/-- The drift quotient exactly as the specification words it:
`max(cur,orig) / max(1,min(cur,orig))`. Stated from the spec, to be compared
with the quotient the code computes. -/
def specDrift (orig cur : Nat) : ℚ :=
  ((max cur orig : Nat) : ℚ) / ((max 1 (min cur orig) : Nat) : ℚ)

end DomGuard

namespace SelfDefend

/-- selfDefend.js 12: `const SELFDEFEND_CHECK_INTERVAL_MS = 4000`. -/
def SELFDEFEND_CHECK_INTERVAL_MS : Nat := 4000

/-- selfDefend.js 15-21: `simpleHash` — the 32-bit unsigned running sum of
the string's char codes (`(hash + str.charCodeAt(i)) >>> 0`); a JS string is
modelled as its list of UTF-16 code units. -/
def simpleHash (codes : List Nat) : Nat :=
  codes.foldl (fun hash c => (hash + c) % 4294967296) 0

/-- A JS function value as the checker observes it: only its serialized
source text (`toString()`) matters, kept as the list of char codes. -/
structure JsFun where
  sourceCodes : List Nat
deriving DecidableEq

/-- The exact source text of `checkIntegrity` (selfDefend.js 25-29) as char
codes — what `checkIntegrity.toString()` yields, from `function` through the
closing brace. -/
def checkIntegritySource : List Nat :=
  [102, 117, 110, 99, 116, 105, 111, 110, 32, 99, 104, 101, 99, 107, 73, 110,
   116, 101, 103, 114, 105, 116, 121, 40, 41, 32, 123, 10, 32, 32, 47, 47,
   32, 84, 104, 105, 115, 32, 99, 111, 109, 109, 101, 110, 116, 32, 105, 115,
   32, 112, 97, 114, 116, 32, 111, 102, 32, 116, 104, 101, 32, 112, 114, 111,
   116, 101, 99, 116, 101, 100, 32, 115, 111, 117, 114, 99, 101, 46, 10, 32,
   32, 47, 47, 32, 67, 104, 97, 110, 103, 105, 110, 103, 32, 116, 104, 105,
   115, 32, 102, 117, 110, 99, 116, 105, 111, 110, 32, 105, 110, 32, 68, 101,
   118, 84, 111, 111, 108, 115, 32, 115, 104, 111, 117, 108, 100, 32, 116,
   114, 105, 103, 103, 101, 114, 32, 116, 104, 101, 32, 115, 101, 108, 102,
   45, 100, 101, 102, 101, 110, 100, 32, 108, 111, 103, 105, 99, 46, 10, 32,
   32, 114, 101, 116, 117, 114, 110, 32, 39, 111, 107, 39, 59, 10, 125]

/-- The canary routine (selfDefend.js 25-29). -/
def checkIntegrity : JsFun := { sourceCodes := checkIntegritySource }

/-- What calling the canary returns (selfDefend.js 28): the call has no
effect on any checker or window state. -/
def checkIntegrityResult : String := "ok"

/-- selfDefend.js 35-36: the IntegrityBaseline, computed once at start from
the canary's serialized source. -/
def originalHash : Nat := simpleHash checkIntegrity.sourceCodes

/-- The object `startSelfDefend` publishes at `window.__selfDefendInfo`
(selfDefend.js 41-44). `targetFn = none` models the field holding a falsy
value (external code overwrote it with `null`/`undefined`/`0`/...). -/
structure SelfDefendInfo where
  targetFn : Option JsFun
  originalHash : Nat
deriving DecidableEq

/-- The value of `window.__selfDefendInfo` as the checker re-reads it each
poll: `none` models the property having been deleted. -/
def WindowInfo : Type := Option SelfDefendInfo

/-- selfDefend.js 68: `const currentFn = info?.targetFn || checkIntegrity` —
the current value behind the externally reachable handle, falling back to
the original `checkIntegrity` when the object is gone or the field falsy. -/
def resolveTarget (info : WindowInfo) : JsFun :=
  match info with
  | none => checkIntegrity
  | some i => (i.targetFn).getD checkIntegrity

/-- selfDefend.js 49-63 (`triggerFail` inside `startSelfDefend`). -/
def triggerFail : Bool → DetectorLatch → String → DetectorLatch := latchTrigger

/-- One poll's view: the current window handle, plus a flag for the host
throwing while the check resolves or serializes the target. -/
structure SelfDefendEnv where
  windowInfo : WindowInfo
  resolveThrows : Bool

/-- selfDefend.js 65-79: `runCheck` with its `try`/`catch` boundary — the
current function behind the handle is re-resolved, re-serialized and
re-hashed; a checksum differing from the baseline fires the trigger with
reason "function-source-changed". -/
def runCheck (cb : Bool) (env : SelfDefendEnv) (s : DetectorLatch) : DetectorLatch :=
  if env.resolveThrows then s
  else
    let currentFn := resolveTarget env.windowInfo
    let currentHash := simpleHash currentFn.sourceCodes
    if currentHash ≠ originalHash then triggerFail cb s "function-source-changed" else s

/-- The interval ticks (selfDefend.js 85-89): each tick runs `runCheck` only
while the flag is down. -/
def polls (cb : Bool) (envs : List SelfDefendEnv) (s : DetectorLatch) : DetectorLatch :=
  envs.foldl (fun t env => if t.triggered then t else runCheck cb env t) s

/-- What a caller may pass to `startSelfDefend`: the callback, plus an
attempted override. selfDefend.js 31 destructures only `onFail`. -/
structure SelfDefendConfig where
  onFail : Bool
  checkIntervalMs : Option Nat

/-- The interval `startSelfDefend` passes to `setInterval`: always the
module constant. -/
def usedInterval (_cfg : SelfDefendConfig) : Nat := SELFDEFEND_CHECK_INTERVAL_MS

end SelfDefend

namespace TasksApp

/-- The three signal sources of the security layer. -/
inductive Source
  | antiDebug
  | domGuard
  | selfDefend
deriving DecidableEq, Repr

/-- The host-visible application state the lock action touches: the list of
`lockApp` invocations (their messages, in order) and the text of the
`#security-message` element (`setSecurityMessage` overwrites it on every
call, ui.js 141-146). -/
structure AppState where
  lockCalls : List String
  securityMessage : String
deriving DecidableEq, Repr

/-- The state before any security event: no lock invocation, empty message
area. -/
def initialAppState : AppState := { lockCalls := [], securityMessage := "" }

/-- app.js 50-67: `lockApp` — unconditionally displays the message and
disables the controls; it keeps no lock state and has no guard against
being invoked again. -/
def lockApp (s : AppState) (message : String) : AppState :=
  { lockCalls := s.lockCalls ++ [message], securityMessage := message }

/-- The detectors `init` (app.js 70-104) actually starts: `startDomGuard`
and `startSelfDefend`; the `startAntiDebug` call (app.js 85-91) is commented
out under the remark "Security (still stubs)". -/
def startedDetectors : List Source := [Source.domGuard, Source.selfDefend]

/-- The callback `init` registers per source, as the fixed message its
closure passes to `lockApp`: `none` for AntiDebug, whose wiring is commented
out, so no callback of it exists at runtime. -/
def wiredMessage : Source → Option String
  | Source.antiDebug => none
  | Source.domGuard => some "DOM tampering detected. App locked."
  | Source.selfDefend => some "Integrity check failed. App locked."

/-- A detector callback firing, as app.js handles it: the registered closure
(when one exists) calls `lockApp` with its fixed message; a source without a
registered callback cannot fire and changes nothing. -/
def dispatchEvent (s : AppState) (src : Source) : AppState :=
  match wiredMessage src with
  | none => s
  | some message => lockApp s message

/-- A whole sequence of detector callback firings against the freshly
initialized application. -/
def fireAll (firings : List Source) : AppState :=
  firings.foldl dispatchEvent initialAppState

end TasksApp

/-! ## Helper lemmas -/

/-- A trigger routine is a no-op once the latch flag is up. -/
theorem latchTrigger_of_triggered (cb : Bool) (s : DetectorLatch) (r : String)
    (h : s.triggered = true) : latchTrigger cb s r = s := by
  simp [latchTrigger, h]

/-- Any sequence of trigger invocations is a no-op once the flag is up. -/
theorem latchTrigger_foldl_of_triggered (cb : Bool) (rs : List String) (s : DetectorLatch)
    (h : s.triggered = true) : rs.foldl (latchTrigger cb) s = s := by
  induction rs with
  | nil => rfl
  | cons r rest ih => rw [List.foldl_cons, latchTrigger_of_triggered cb s r h, ih]

/-- Two or more trigger invocations from the running untriggered state: the
flag goes up, the timer is cancelled and nulled once, and exactly the first
reason reaches the callback. -/
theorem latchTrigger_chain (s : DetectorLatch) (r1 r2 : String) (rest : List String)
    (hT : s.triggered = false) (hI : s.intervalId.isSome = true) (hC : s.cancels = 0) :
    (r1 :: r2 :: rest).foldl (latchTrigger true) s =
      { triggered := true, intervalId := none, cancels := 1, calls := s.calls ++ [r1] } := by
  have h1 : latchTrigger true s r1 =
      { triggered := true, intervalId := none, cancels := 1, calls := s.calls ++ [r1] } := by
    simp [latchTrigger, hT, hI, hC]
  rw [List.foldl_cons, h1, latchTrigger_foldl_of_triggered _ _ _ rfl]

/-- Comparison of a rational quotient of naturals against 3, with positive
denominator, as a natural-number comparison. -/
theorem qdiv_gt_three (a b : ℕ) (hb : 1 ≤ b) : ((3:ℚ) < (a:ℚ) / (b:ℚ)) ↔ 3 * b < a := by
  rw [lt_div_iff₀ (by exact_mod_cast hb)]
  exact_mod_cast Iff.rfl

/-- `Math.max(1, n)` over ℚ on a natural input is the cast of the ℕ max. -/
theorem cast_max_one (n : ℕ) : max 1 ((n:ℚ)) = ((max 1 n : ℕ) : ℚ) := by
  push_cast
  rfl

/-- The quotient test of `isTampered`, characterized over ℕ: for an entry
that existed with original length `orig` and a live element of length `cur`,
the code reports tampering exactly when `max cur orig > 3 * max 1 (min cur orig)`. -/
theorem entryTampered_true_iff (sel : String) (orig cur : ℕ) :
    DomGuard.entryTampered { selector := sel, existsFlag := true, textLength := orig }
        (some cur) = true ↔
      max cur orig > 3 * max 1 (min cur orig) := by
  simp only [DomGuard.entryTampered, if_true, gt_iff_lt, decide_eq_true_eq,
    DomGuard.TEXT_CHANGE_FACTOR]
  rw [cast_max_one orig, cast_max_one cur]
  by_cases h : ((max 1 orig : ℕ) : ℚ) < (cur : ℚ)
  · have hn : max 1 orig < cur := by exact_mod_cast h
    rw [if_pos h, qdiv_gt_three cur (max 1 orig) (by omega)]
    omega
  · have hn : ¬ (max 1 orig < cur) := fun hc => h (by exact_mod_cast hc)
    rw [if_neg h, qdiv_gt_three (max 1 orig) (max 1 cur) (by omega)]
    omega

/-- The specification's drift quotient exceeds 3 exactly under the same
natural-number condition. -/
theorem specDrift_gt_three_iff (orig cur : ℕ) :
    DomGuard.specDrift orig cur > 3 ↔ max cur orig > 3 * max 1 (min cur orig) := by
  unfold DomGuard.specDrift
  rw [gt_iff_lt, qdiv_gt_three (max cur orig) (max 1 (min cur orig)) (by omega)]

/-- An entry whose element did not exist at snapshot time never reports
tampering, whatever the live DOM holds for its selector. -/
theorem entryTampered_of_flag_false (item : DomGuard.SnapEntry)
    (h : item.existsFlag = false) (el : Option ℕ) :
    DomGuard.entryTampered item el = false := by
  cases el with
  | none => simpa [DomGuard.entryTampered] using h
  | some cur => simp [DomGuard.entryTampered, h]

/-- A snapshot all of whose entries recorded a missing element never reports
tampering. -/
theorem isTampered_false_of_all_flag_false (snap : List DomGuard.SnapEntry)
    (live : DomGuard.LiveDom) (h : ∀ item ∈ snap, item.existsFlag = false) :
    DomGuard.isTampered snap live = false := by
  induction snap with
  | nil => rfl
  | cons item rest ih =>
    simp only [DomGuard.isTampered, List.any_cons]
    rw [entryTampered_of_flag_false item (h item (List.mem_cons_self item rest)) _]
    simp only [Bool.false_or]
    exact ih (fun i hi => h i (List.mem_cons_of_mem _ hi))

/-- Folding the app's event dispatch from any state: one `lockApp` call per
wired firing, and the message area holds the last wired message. -/
theorem dispatch_foldl (firings : List TasksApp.Source) (s : TasksApp.AppState) :
    (firings.foldl TasksApp.dispatchEvent s).lockCalls
        = s.lockCalls ++ firings.filterMap TasksApp.wiredMessage
    ∧ (firings.foldl TasksApp.dispatchEvent s).securityMessage
        = (firings.filterMap TasksApp.wiredMessage).getLastD s.securityMessage := by
  induction firings generalizing s with
  | nil => exact ⟨(List.append_nil s.lockCalls).symm, rfl⟩
  | cons src rest ih =>
    rw [List.foldl_cons]
    cases h : TasksApp.wiredMessage src with
    | none =>
      have hd : TasksApp.dispatchEvent s src = s := by
        unfold TasksApp.dispatchEvent
        rw [h]
      rw [hd]
      simp only [List.filterMap_cons, h]
      exact ih s
    | some m =>
      have hd : TasksApp.dispatchEvent s src = TasksApp.lockApp s m := by
        unfold TasksApp.dispatchEvent
        rw [h]
      obtain ⟨h1, h2⟩ := ih (TasksApp.lockApp s m)
      simp only [List.filterMap_cons, h, hd, List.getLastD_cons]
      refine ⟨?_, ?_⟩
      · rw [h1]
        show s.lockCalls ++ [m] ++ _ = _
        rw [List.append_assoc]
        rfl
      · rw [h2]
        rfl

/-- `SelfDefend.runCheck` on a non-throwing poll, written as the single
checksum comparison it performs. -/
theorem selfDefend_runCheck_eval (cb : Bool) (w : SelfDefend.WindowInfo) (s : DetectorLatch) :
    SelfDefend.runCheck cb { windowInfo := w, resolveThrows := false } s =
      (if SelfDefend.simpleHash (SelfDefend.resolveTarget w).sourceCodes ≠ SelfDefend.originalHash
       then SelfDefend.triggerFail cb s "function-source-changed" else s) := rfl

/-- When the handle resolves to the original canary, a self-defend poll is a
no-op whether or not it throws. -/
theorem selfDefend_runCheck_fallback (e : SelfDefend.SelfDefendEnv) (s : DetectorLatch)
    (he : SelfDefend.resolveTarget e.windowInfo = SelfDefend.checkIntegrity) :
    SelfDefend.runCheck true e s = s := by
  cases hrt : e.resolveThrows with
  | true => simp [SelfDefend.runCheck, hrt]
  | false =>
    simp only [SelfDefend.runCheck, hrt, Bool.false_eq_true, if_false]
    rw [he]
    have hbase : SelfDefend.simpleHash SelfDefend.checkIntegrity.sourceCodes
        = SelfDefend.originalHash := rfl
    rw [if_neg (not_not_intro hbase)]

/-- A list never equals itself extended by one element. -/
theorem calls_ne_self_append (l : List String) (r : String) : l ≠ l ++ [r] := by
  intro h
  have := congrArg List.length h
  simp at this

/-! ## Claim theorems -/

/-- Claim C1, counterexample: the claim asserts that over any sequence of
two or three detector callback firings, `lockApp` is invoked exactly once,
with the message of the source that fired first. In the code there is no
coordinator latch: with DomGuardMonitor firing first and SelfDefendChecker
firing second, `lockApp` is invoked twice, and the displayed security
message is that of the second source, not the first. -/
theorem C1_lock_counterexample :
    (TasksApp.fireAll [TasksApp.Source.domGuard, TasksApp.Source.selfDefend]).lockCalls.length = 2
    ∧ (TasksApp.fireAll [TasksApp.Source.domGuard, TasksApp.Source.selfDefend]).securityMessage
        = "Integrity check failed. App locked."
    ∧ TasksApp.wiredMessage TasksApp.Source.domGuard
        = some "DOM tampering detected. App locked." := by
  refine ⟨rfl, rfl, rfl⟩

/-- Claim C1 as amended: app.js keeps no lock state, so each wired
detector's callback firing invokes `lockApp` once — a sequence of firings
invokes it once per wired firing (AntiDebugDetector has no wired callback
and cannot fire), and the security message displayed at the end is the one
of whichever wired source fired last, not first. -/
theorem C1_lock_per_wired_firing (firings : List TasksApp.Source) :
    (TasksApp.fireAll firings).lockCalls = firings.filterMap TasksApp.wiredMessage
    ∧ (TasksApp.fireAll firings).securityMessage
        = (firings.filterMap TasksApp.wiredMessage).getLastD "" := by
  obtain ⟨h1, h2⟩ := dispatch_foldl firings TasksApp.initialAppState
  exact ⟨by rw [TasksApp.fireAll, h1]; exact List.nil_append _, h2⟩

/-- Claim C2: the claim (and the repository's own EXPLAINER.md §2.3) says
`init` subscribes all three detectors; in app.js the `startAntiDebug` call
is commented out, so only DomGuardMonitor and SelfDefendChecker are started
and AntiDebugDetector has no registered callback. -/
theorem C2_antiDebug_not_subscribed :
    TasksApp.startedDetectors = [TasksApp.Source.domGuard, TasksApp.Source.selfDefend]
    ∧ TasksApp.Source.antiDebug ∉ TasksApp.startedDetectors
    ∧ TasksApp.wiredMessage TasksApp.Source.antiDebug = none := by
  refine ⟨rfl, by decide, rfl⟩

/-- Claim C3, counterexample: none of the configuration constants can be
overridden through the config object — the start functions destructure only
their callback, so a config carrying override values (here interval 1000,
size threshold 50, pause threshold 10, drift factor 10, self-defend interval
500) still yields the hard-coded 3000/160/100, factor 3 and 4000. -/
theorem C3_override_counterexample :
    AntiDebug.usedInterval
        { onDetected := true, detectionIntervalMs := some 1000,
          sizeThreshold := some 50, pauseThresholdMs := some 10 } = 3000
    ∧ ¬ AntiDebug.usedInterval
        { onDetected := true, detectionIntervalMs := some 1000,
          sizeThreshold := some 50, pauseThresholdMs := some 10 } = 1000
    ∧ AntiDebug.usedSizeThreshold
        { onDetected := true, detectionIntervalMs := some 1000,
          sizeThreshold := some 50, pauseThresholdMs := some 10 } = 160
    ∧ AntiDebug.usedPauseThreshold
        { onDetected := true, detectionIntervalMs := some 1000,
          sizeThreshold := some 50, pauseThresholdMs := some 10 } = 100
    ∧ DomGuard.usedInterval
        { onTamper := true, checkIntervalMs := some 1000, textChangeFactor := some 10 } = 3000
    ∧ DomGuard.usedFactor
        { onTamper := true, checkIntervalMs := some 1000, textChangeFactor := some 10 } = 3
    ∧ ¬ DomGuard.usedFactor
        { onTamper := true, checkIntervalMs := some 1000, textChangeFactor := some 10 } = 10
    ∧ SelfDefend.usedInterval { onFail := true, checkIntervalMs := some 500 } = 4000
    ∧ ¬ SelfDefend.usedInterval { onFail := true, checkIntervalMs := some 500 } = 500 := by
  refine ⟨rfl, by decide, rfl, rfl, rfl, rfl, ?_, rfl, by decide⟩
  norm_num [DomGuard.usedFactor, DomGuard.TEXT_CHANGE_FACTOR]

/-- Claim C3 as amended: the six configuration constants — poll intervals
3000/3000/4000 ms, viewport-delta threshold 160 px, pause-timing threshold
100 ms, text-length drift factor 3 — are fixed module-level values the
algorithms always use; the config objects accept only the callback and no
constant is overridable at start time. -/
theorem C3_constants_hard_coded :
    (∀ cfg : AntiDebug.AntiDebugConfig,
      AntiDebug.usedInterval cfg = 3000 ∧ AntiDebug.usedSizeThreshold cfg = 160
      ∧ AntiDebug.usedPauseThreshold cfg = 100)
    ∧ (∀ cfg : DomGuard.DomGuardConfig,
      DomGuard.usedInterval cfg = 3000 ∧ DomGuard.usedFactor cfg = 3)
    ∧ (∀ cfg : SelfDefend.SelfDefendConfig, SelfDefend.usedInterval cfg = 4000) :=
  ⟨fun _ => ⟨rfl, rfl, rfl⟩, fun _ => ⟨rfl, rfl⟩, fun _ => rfl⟩

/-- Claim C4: from the running untriggered state (flag down, timer handle
live, nothing cancelled yet), invoking a detector's trigger routine two or
more times invokes the external callback exactly once, with the first
reason; the flag goes up, the timer is cancelled and set to null exactly
once; and — for all three routines — once the flag is up any further
sequence of trigger invocations changes nothing, so the flag never returns
to false. -/
theorem C4_trigger_exactly_once (s : DetectorLatch) (r1 r2 : String) (rest : List String)
    (hT : s.triggered = false) (hI : s.intervalId.isSome = true) (hC : s.cancels = 0) :
    ((r1 :: r2 :: rest).foldl (AntiDebug.triggerDetection true) s
        = { triggered := true, intervalId := none, cancels := 1, calls := s.calls ++ [r1] })
    ∧ ((r1 :: r2 :: rest).foldl (DomGuard.triggerTamper true) s
        = { triggered := true, intervalId := none, cancels := 1, calls := s.calls ++ [r1] })
    ∧ ((r1 :: r2 :: rest).foldl (SelfDefend.triggerFail true) s
        = { triggered := true, intervalId := none, cancels := 1, calls := s.calls ++ [r1] })
    ∧ (∀ (u : DetectorLatch) (rs : List String), u.triggered = true →
        rs.foldl (AntiDebug.triggerDetection true) u = u
        ∧ rs.foldl (DomGuard.triggerTamper true) u = u
        ∧ rs.foldl (SelfDefend.triggerFail true) u = u) := by
  have hAD : AntiDebug.triggerDetection = latchTrigger := rfl
  have hDG : DomGuard.triggerTamper = latchTrigger := rfl
  have hSD : SelfDefend.triggerFail = latchTrigger := rfl
  rw [hAD, hDG, hSD]
  refine ⟨latchTrigger_chain s r1 r2 rest hT hI hC,
    latchTrigger_chain s r1 r2 rest hT hI hC,
    latchTrigger_chain s r1 r2 rest hT hI hC,
    fun u rs hu => ⟨latchTrigger_foldl_of_triggered true rs u hu,
      latchTrigger_foldl_of_triggered true rs u hu,
      latchTrigger_foldl_of_triggered true rs u hu⟩⟩

/-- Witness for C4 at a concrete input: the running latch with handle 1,
triggered twice. -/
theorem C4_trigger_exactly_once_witness :
    ((["window-size-heuristic", "timing-debugger-heuristic"].foldl
        (AntiDebug.triggerDetection true) (runningLatch 1))
        = { triggered := true, intervalId := none, cancels := 1,
            calls := (runningLatch 1).calls ++ ["window-size-heuristic"] })
    ∧ ((["window-size-heuristic", "timing-debugger-heuristic"].foldl
        (DomGuard.triggerTamper true) (runningLatch 1))
        = { triggered := true, intervalId := none, cancels := 1,
            calls := (runningLatch 1).calls ++ ["window-size-heuristic"] })
    ∧ ((["window-size-heuristic", "timing-debugger-heuristic"].foldl
        (SelfDefend.triggerFail true) (runningLatch 1))
        = { triggered := true, intervalId := none, cancels := 1,
            calls := (runningLatch 1).calls ++ ["window-size-heuristic"] })
    ∧ (∀ (u : DetectorLatch) (rs : List String), u.triggered = true →
        rs.foldl (AntiDebug.triggerDetection true) u = u
        ∧ rs.foldl (DomGuard.triggerTamper true) u = u
        ∧ rs.foldl (SelfDefend.triggerFail true) u = u) :=
  C4_trigger_exactly_once (runningLatch 1)
    "window-size-heuristic" "timing-debugger-heuristic" [] rfl rfl rfl

/-- Claim C5: for an entry whose element existed at snapshot time, a poll
reports tampering exactly when the element is now absent, or the drift
quotient `max(cur,orig)/max(1,min(cur,orig))` — the specification's formula,
which the code's conditional quotient realizes — exceeds the factor 3; in
particular original length 100 with current length 50 is no tamper, current
length 10 is tamper, and the poll then fires with reason
"snapshot-mismatch". -/
theorem C5_snapshot_mismatch_iff :
    (∀ (sel : String) (orig : ℕ),
      DomGuard.entryTampered { selector := sel, existsFlag := true, textLength := orig }
        none = true)
    ∧ (∀ (sel : String) (orig cur : ℕ),
      DomGuard.entryTampered { selector := sel, existsFlag := true, textLength := orig }
          (some cur) = true
        ↔ DomGuard.specDrift orig cur > 3)
    ∧ DomGuard.entryTampered { selector := "#task-list", existsFlag := true, textLength := 100 }
        (some 50) = false
    ∧ DomGuard.entryTampered { selector := "#task-list", existsFlag := true, textLength := 100 }
        (some 10) = true
    ∧ (DomGuard.runCheck true
        [{ selector := "#task-list", existsFlag := true, textLength := 100 }]
        { live := fun _ => some 10, queryThrows := false } initialLatch).calls
        = ["snapshot-mismatch"] := by
  have h10 : DomGuard.entryTampered
      { selector := "#task-list", existsFlag := true, textLength := 100 } (some 10) = true :=
    (entryTampered_true_iff "#task-list" 100 10).mpr (by omega)
  refine ⟨fun sel orig => rfl,
    fun sel orig cur =>
      (entryTampered_true_iff sel orig cur).trans (specDrift_gt_three_iff orig cur).symm,
    ?_, h10, ?_⟩
  · rcases Bool.eq_false_or_eq_true
        (DomGuard.entryTampered
          { selector := "#task-list", existsFlag := true, textLength := 100 } (some 50)) with
      hb | hb
    · exact absurd ((entryTampered_true_iff "#task-list" 100 50).mp hb) (by omega)
    · exact hb
  · have hT : DomGuard.isTampered
        [{ selector := "#task-list", existsFlag := true, textLength := 100 }]
        (fun _ => some 10) = true := by
      simp only [DomGuard.isTampered, List.any_cons, List.any_nil, Bool.or_false]
      exact h10
    simp only [DomGuard.runCheck, Bool.false_eq_true, if_false, hT, if_true]
    rfl

set_option maxRecDepth 8000 in
/-- Claim C6: a non-throwing self-defend poll re-resolves the current
function behind `window.__selfDefendInfo.targetFn` (falling back to the
original canary), recomputes the 32-bit running char-code checksum of its
source, and fires the callback with reason "function-source-changed"
exactly when that checksum differs from the baseline; replacing the handle
with a routine of different source fires on the next poll, while a poll
over the unchanged handle — all that merely calling the canary, which
returns "ok" and mutates nothing, leaves behind — fires nothing. -/
theorem C6_checksum_mismatch_fires :
    (∀ (w : SelfDefend.WindowInfo) (s : DetectorLatch), s.triggered = false →
      ((SelfDefend.runCheck true { windowInfo := w, resolveThrows := false } s).calls
          = s.calls ++ ["function-source-changed"]
        ↔ SelfDefend.simpleHash (SelfDefend.resolveTarget w).sourceCodes
            ≠ SelfDefend.originalHash))
    ∧ (∀ (w : SelfDefend.WindowInfo) (s : DetectorLatch),
        SelfDefend.simpleHash (SelfDefend.resolveTarget w).sourceCodes
            = SelfDefend.originalHash →
        SelfDefend.runCheck true { windowInfo := w, resolveThrows := false } s = s)
    ∧ (SelfDefend.runCheck true
        ⟨some ⟨some ⟨[104, 97, 120]⟩, SelfDefend.originalHash⟩, false⟩
        initialLatch).calls = ["function-source-changed"]
    ∧ SelfDefend.runCheck true
        ⟨some ⟨some SelfDefend.checkIntegrity, SelfDefend.originalHash⟩, false⟩
        initialLatch = initialLatch
    ∧ SelfDefend.checkIntegrityResult = "ok" := by
  have hsame : ∀ (w : SelfDefend.WindowInfo) (s : DetectorLatch),
      SelfDefend.simpleHash (SelfDefend.resolveTarget w).sourceCodes
          = SelfDefend.originalHash →
      SelfDefend.runCheck true { windowInfo := w, resolveThrows := false } s = s := by
    intro w s hH
    rw [selfDefend_runCheck_eval, if_neg (not_not_intro hH)]
  refine ⟨?_, hsame, by decide, ?_, rfl⟩
  · intro w s hs
    by_cases hH : SelfDefend.simpleHash (SelfDefend.resolveTarget w).sourceCodes
        = SelfDefend.originalHash
    · rw [hsame w s hH]
      constructor
      · intro h
        exact absurd h (calls_ne_self_append s.calls "function-source-changed")
      · intro h
        exact absurd hH h
    · rw [selfDefend_runCheck_eval, if_pos hH]
      constructor
      · intro _
        exact hH
      · intro _
        show (latchTrigger true s "function-source-changed").calls = _
        simp [latchTrigger, hs]
  · exact selfDefend_runCheck_fallback
      ⟨some ⟨some SelfDefend.checkIntegrity, SelfDefend.originalHash⟩, false⟩ initialLatch rfl

/-- Claim C7: for every detector, an exception raised while a poll evaluates
its heuristics is caught at the poll boundary and treated as no detection
that round — the poll returns the state unchanged — and a throwing poll does
not prevent subsequent polls from running: the tick fold over a throwing
environment equals the fold without it, and concretely a throwing anti-debug
poll followed by a detecting one still fires. -/
theorem C7_poll_exceptions_swallowed :
    (∀ (cb : Bool) (env : AntiDebug.DebugEnv) (s : DetectorLatch),
      AntiDebug.evalChecks env = Except.error () → AntiDebug.runChecks cb env s = s)
    ∧ (∀ (cb : Bool) (env : AntiDebug.DebugEnv) (rest : List AntiDebug.DebugEnv)
        (s : DetectorLatch),
      AntiDebug.evalChecks env = Except.error () →
      AntiDebug.polls cb (env :: rest) s = AntiDebug.polls cb rest s)
    ∧ (∀ (cb : Bool) (snap : List DomGuard.SnapEntry) (env : DomGuard.DomEnv)
        (s : DetectorLatch),
      env.queryThrows = true → DomGuard.runCheck cb snap env s = s)
    ∧ (∀ (cb : Bool) (snap : List DomGuard.SnapEntry) (env : DomGuard.DomEnv)
        (rest : List DomGuard.DomEnv) (s : DetectorLatch),
      env.queryThrows = true →
      DomGuard.polls cb snap (env :: rest) s = DomGuard.polls cb snap rest s)
    ∧ (∀ (cb : Bool) (env : SelfDefend.SelfDefendEnv) (s : DetectorLatch),
      env.resolveThrows = true → SelfDefend.runCheck cb env s = s)
    ∧ (∀ (cb : Bool) (env : SelfDefend.SelfDefendEnv) (rest : List SelfDefend.SelfDefendEnv)
        (s : DetectorLatch),
      env.resolveThrows = true →
      SelfDefend.polls cb (env :: rest) s = SelfDefend.polls cb rest s)
    ∧ (AntiDebug.polls true
        [{ outerWidth := 0, innerWidth := 0, outerHeight := 0, innerHeight := 0,
           pauseDeltaMs := 0, sizeThrows := true, timingThrows := false },
         { outerWidth := 1000, innerWidth := 800, outerHeight := 900, innerHeight := 880,
           pauseDeltaMs := 0, sizeThrows := false, timingThrows := false }]
        initialLatch).calls = ["window-size-heuristic"] := by
  have hAD : ∀ (cb : Bool) (env : AntiDebug.DebugEnv) (s : DetectorLatch),
      AntiDebug.evalChecks env = Except.error () → AntiDebug.runChecks cb env s = s := by
    intro cb env s h
    simp only [AntiDebug.runChecks, h]
  have hDG : ∀ (cb : Bool) (snap : List DomGuard.SnapEntry) (env : DomGuard.DomEnv)
      (s : DetectorLatch),
      env.queryThrows = true → DomGuard.runCheck cb snap env s = s := by
    intro cb snap env s h
    simp only [DomGuard.runCheck, h, if_true]
  have hSD : ∀ (cb : Bool) (env : SelfDefend.SelfDefendEnv) (s : DetectorLatch),
      env.resolveThrows = true → SelfDefend.runCheck cb env s = s := by
    intro cb env s h
    simp only [SelfDefend.runCheck, h, if_true]
  refine ⟨hAD, ?_, hDG, ?_, hSD, ?_, by decide⟩
  · intro cb env rest s h
    unfold AntiDebug.polls
    rw [List.foldl_cons]
    cases ht : s.triggered with
    | true => rw [if_pos rfl]
    | false =>
      rw [if_neg (by simp), hAD cb env s h]
  · intro cb snap env rest s h
    unfold DomGuard.polls
    rw [List.foldl_cons]
    cases ht : s.triggered with
    | true => rw [if_pos rfl]
    | false =>
      rw [if_neg (by simp), hDG cb snap env s h]
  · intro cb env rest s h
    unfold SelfDefend.polls
    rw [List.foldl_cons]
    cases ht : s.triggered with
    | true => rw [if_pos rfl]
    | false =>
      rw [if_neg (by simp), hSD cb env s h]

/-- Claim C8: `isDevToolsOpenBySize` returns true exactly when the
outer/inner width difference or the outer/inner height difference exceeds
the 160 px threshold; with a width difference of 200 (height difference 20)
it returns true, with a width difference of 50 (height difference 20) it
returns false. -/
theorem C8_size_heuristic :
    (∀ env : AntiDebug.DebugEnv,
      AntiDebug.isDevToolsOpenBySize env = true ↔
        (env.outerWidth - env.innerWidth > 160 ∨ env.outerHeight - env.innerHeight > 160))
    ∧ AntiDebug.isDevToolsOpenBySize
        { outerWidth := 1000, innerWidth := 800, outerHeight := 900, innerHeight := 880,
          pauseDeltaMs := 0, sizeThrows := false, timingThrows := false } = true
    ∧ AntiDebug.isDevToolsOpenBySize
        { outerWidth := 850, innerWidth := 800, outerHeight := 900, innerHeight := 880,
          pauseDeltaMs := 0, sizeThrows := false, timingThrows := false } = false := by
  refine ⟨fun env => ?_, by decide, by decide⟩
  simp [AntiDebug.isDevToolsOpenBySize, AntiDebug.SIZE_THRESHOLD]

/-- Claim C9: a snapshot entry recorded with `exists = false` never reports
tampering, whatever the live DOM later holds for its selector (appearing
element included); a snapshot whose entries all recorded a missing element
never trips `isTampered`; and `snapshotDom` records length 0 for exactly
such entries. -/
theorem C9_nonexistent_entries_ignored :
    (∀ (sel : String) (len : ℕ) (el : Option ℕ),
      DomGuard.entryTampered { selector := sel, existsFlag := false, textLength := len }
        el = false)
    ∧ (∀ (snap : List DomGuard.SnapEntry) (live : DomGuard.LiveDom),
        (∀ item ∈ snap, item.existsFlag = false) → DomGuard.isTampered snap live = false)
    ∧ (∀ (live : DomGuard.LiveDom) (e : DomGuard.SnapEntry),
        e ∈ DomGuard.snapshotDom live → e.existsFlag = false → e.textLength = 0) := by
  refine ⟨fun sel len el => entryTampered_of_flag_false _ rfl el,
    isTampered_false_of_all_flag_false, ?_⟩
  intro live e he hf
  simp only [DomGuard.snapshotDom, List.mem_map] at he
  obtain ⟨sel, hsel, he⟩ := he
  cases hls : live sel with
  | none =>
    rw [hls] at he
    rw [← he]
  | some n =>
    rw [hls] at he
    rw [← he] at hf
    simp at hf

/-- Claim C10: when `window.__selfDefendInfo` is deleted or its `targetFn`
field holds a falsy value, the checker falls back to the original
`checkIntegrity`, whose recomputed checksum equals the baseline, and over
any sequence of such polls the latch never moves and `onFail` is never
invoked — removing the canary handle is never detected. -/
theorem C10_fallback_never_fires :
    SelfDefend.resolveTarget none = SelfDefend.checkIntegrity
    ∧ (∀ h : ℕ, SelfDefend.resolveTarget (some { targetFn := none, originalHash := h })
        = SelfDefend.checkIntegrity)
    ∧ (∀ w : SelfDefend.WindowInfo, SelfDefend.resolveTarget w = SelfDefend.checkIntegrity →
        SelfDefend.simpleHash (SelfDefend.resolveTarget w).sourceCodes
          = SelfDefend.originalHash)
    ∧ (∀ (envs : List SelfDefend.SelfDefendEnv) (s : DetectorLatch),
        (∀ e ∈ envs, SelfDefend.resolveTarget e.windowInfo = SelfDefend.checkIntegrity) →
        SelfDefend.polls true envs s = s) := by
  refine ⟨rfl, fun h => rfl, fun w hw => by rw [hw]; rfl, ?_⟩
  intro envs s h
  induction envs generalizing s with
  | nil => rfl
  | cons e rest ih =>
    unfold SelfDefend.polls
    rw [List.foldl_cons]
    have hstep : (if s.triggered then s
        else SelfDefend.runCheck true e s) = s := by
      cases ht : s.triggered with
      | true => rw [if_pos rfl]
      | false =>
        rw [if_neg (by simp)]
        exact selfDefend_runCheck_fallback e s (h e (List.mem_cons_self e rest))
    rw [hstep]
    exact ih s (fun i hi => h i (List.mem_cons_of_mem _ hi))
